import Mathlib

/-!
Verification of the Nichifier monetisation service
(`app/services/monetisation_service.py`).

Monetary values are Python `Decimal`s in the source; `Decimal` addition,
subtraction and multiplication are exact for the magnitudes involved, and the
only rounding is `_quantize_amount`, which quantizes to two decimal places with
`ROUND_HALF_UP` (ties away from zero).  We therefore embed amounts as `ℚ`
together with an explicit quantization function.
-/

namespace Nichifier

/-- Rounding of a rational to an integer in Python's `ROUND_HALF_UP` mode:
round to the nearest integer, with ties going away from zero. -/
def roundHalfUp (x : ℚ) : ℤ :=
  if 0 ≤ x then ⌊x + 1 / 2⌋ else -⌊-x + 1 / 2⌋

/-- Embedding of `_quantize_amount`: `value.quantize(Decimal("0.01"),
rounding=ROUND_HALF_UP)`, i.e. rounding to two decimal places, half away
from zero. -/
def quantize_amount (v : ℚ) : ℚ :=
  (roundHalfUp (v * 100) : ℚ) / 100

/-- A rational already lies on the two-decimal-place grid: quantizing it is the
identity.  Every amount stored by the service satisfies this, since all writes
go through `quantize_amount`. -/
def isQuantized (v : ℚ) : Prop :=
  quantize_amount v = v

instance (v : ℚ) : Decidable (isQuantized v) := by
  unfold isQuantized; infer_instance

/-- Embedding of `UserRole` from `app/models.py`. -/
inductive UserRole where
  | ADMIN
  | NICHE_ADMIN
  | SUBSCRIBER
deriving DecidableEq, Repr

/-- Modelled from the spec: `SubscriptionStatus` is imported by the service but
its class is not among the provided sources; §3 of the spec gives the two
values the metrics updater writes ("active" if gross_amount > 0, else
"trialing"). -/
inductive SubscriptionStatus where
  | ACTIVE
  | TRIALING
deriving DecidableEq, Repr

/-- Modelled from the spec: the `PlatformMonetisationSettings` ORM class is not
among the provided sources; §3 lists its fields (fee percent, minimum fee,
currency code, optional processor credentials). -/
structure PlatformMonetisationSettings where
  platform_fee_percent : ℚ
  minimum_platform_fee : ℚ
  currency_code : String
  stripe_publishable_key : Option String := none
  stripe_secret_key : Option String := none
deriving DecidableEq, Repr

/-- Modelled from the spec: the `CreatorPlan` ORM class is not among the
provided sources; §3 and the service code give its fields (unique numeric id,
slug, display name, description, monthly fee, currency, price id, niche quota,
feature summary, fee-discount percent). -/
structure CreatorPlan where
  id : Nat
  slug : String
  display_name : String
  description : Option String := none
  monthly_fee : ℚ
  currency_code : String
  stripe_price_id : Option String := none
  max_niches : Int
  feature_summary : String
  platform_fee_discount_percent : ℚ
deriving DecidableEq, Repr

/-- Modelled from the spec: the monetisation columns of the `Subscription` row
written by `ensure_subscription_metrics` (§3: currency, cadence, the three
two-decimal amounts, and a status). -/
structure Subscription where
  currency_code : String
  billing_cadence : String
  gross_amount : ℚ
  platform_fee_amount : ℚ
  creator_payout_amount : ℚ
  status : SubscriptionStatus
deriving DecidableEq, Repr

/-- Embedding of `User` from `app/models.py`, restricted to the fields touched
by `attach_creator_privileges`. -/
structure User where
  email : String
  role : UserRole
  is_premium : Bool
deriving DecidableEq, Repr

/-- Lines 173-178 of `calculate_revenue_split`: the effective fee percent
starts from `settings.platform_fee_percent` and, when a plan is supplied whose
`platform_fee_discount_percent` is truthy (non-zero), is replaced by
`max(Decimal("0.00"), settings.platform_fee_percent - discount)`. -/
def effective_fee_percent (settings : PlatformMonetisationSettings)
    (creator_plan : Option CreatorPlan) : ℚ :=
  match creator_plan with
  | none => settings.platform_fee_percent
  | some plan =>
      if plan.platform_fee_discount_percent ≠ 0 then
        max 0 (settings.platform_fee_percent - plan.platform_fee_discount_percent)
      else
        settings.platform_fee_percent

/-- Embedding of `calculate_revenue_split` (lines 162-188): returns
`(platform_fee, creator_payout)`.  Non-positive gross short-circuits to
`(0.00, 0.00)`; otherwise the fee is the effective percentage of gross, floored
at `minimum_platform_fee`, quantized; the payout is the quantized remainder. -/
def calculate_revenue_split (gross_amount : ℚ)
    (settings : PlatformMonetisationSettings)
    (creator_plan : Option CreatorPlan) : ℚ × ℚ :=
  if gross_amount ≤ 0 then (0, 0)
  else
    let eff := effective_fee_percent settings creator_plan
    let raw_fee := gross_amount * (eff / 100)
    let floored_fee := max raw_fee settings.minimum_platform_fee
    let platform_fee := quantize_amount floored_fee
    let creator_amount := quantize_amount (gross_amount - platform_fee)
    (platform_fee, creator_amount)

/-- Embedding of `calculate_subscription_totals` (lines 145-159): sum the
prices of the selected products and quantize. -/
def calculate_subscription_totals (newsletter_price report_price : ℚ)
    (wants_newsletter wants_report : Bool) : ℚ :=
  let gross : ℚ := 0
  let gross := if wants_newsletter then gross + newsletter_price else gross
  let gross := if wants_report then gross + report_price else gross
  quantize_amount gross

/-- Embedding of `ensure_subscription_metrics` (lines 225-259) as a pure state
update on the subscription row: computes the split and overwrites currency,
cadence, amounts and status. -/
def ensure_subscription_metrics (subscription : Subscription)
    (gross_amount : ℚ) (settings : PlatformMonetisationSettings)
    (creator_plan : Option CreatorPlan)
    (currency_code billing_cadence : String) : Subscription :=
  let split := calculate_revenue_split gross_amount settings creator_plan
  { subscription with
    currency_code := currency_code
    billing_cadence := billing_cadence
    gross_amount := quantize_amount gross_amount
    platform_fee_amount := split.1
    creator_payout_amount := split.2
    status := if 0 < gross_amount then SubscriptionStatus.ACTIVE
              else SubscriptionStatus.TRIALING }

/-- Default settings created by `get_or_create_platform_settings`
(`DEFAULT_PLATFORM_FEE_PERCENT = 15.00`, `DEFAULT_PLATFORM_MIN_FEE = 1.00`,
`DEFAULT_CURRENCY = "GBP"`). -/
def defaultSettings : PlatformMonetisationSettings :=
  { platform_fee_percent := 15
    minimum_platform_fee := 1
    currency_code := "GBP" }

/-- Embedding of `get_or_create_platform_settings` (lines 40-60).  The
settings table is the list of its rows in insertion order; `select(...).limit(1)`
reads the first row.  Returns the settings together with the table after the
call. -/
def get_or_create_platform_settings
    (store : List PlatformMonetisationSettings) :
    PlatformMonetisationSettings × List PlatformMonetisationSettings :=
  match store with
  | s :: _ => (s, store)
  | [] => (defaultSettings, [defaultSettings])

/-- Line 118 of `upsert_creator_plan`:
`normalized_slug = slug.strip().lower().replace(" ", "-")`. -/
def normalize_slug (slug : String) : String :=
  (slug.trim.toLower).replace " " "-"

/-- Lines 129-136 of `upsert_creator_plan`: the field assignments applied to
the (new or found) plan.  The slug is not among them. -/
def apply_plan_fields (plan : CreatorPlan) (display_name : String)
    (description : Option String) (monthly_fee : ℚ) (currency_code : String)
    (stripe_price_id : Option String) (max_niches : Int)
    (feature_summary : String) (discount : ℚ) : CreatorPlan :=
  { plan with
    display_name := display_name.trim
    description :=
      let d := (description.getD "").trim
      if d = "" then none else some d
    monthly_fee := quantize_amount monthly_fee
    currency_code := currency_code.toUpper
    stripe_price_id :=
      let s := (stripe_price_id.getD "").trim
      if s = "" then none else some s
    max_niches := max 1 max_niches
    feature_summary := feature_summary.trim
    platform_fee_discount_percent := quantize_amount discount }

/-- Embedding of `upsert_creator_plan` (lines 102-142).  The plan table is a
list of rows; ids are unique, assigned by autoincrement on insert.  With no
`plan_id` a fresh plan is created under the normalized slug; with a `plan_id`
the matching row is updated in place, and a missing id raises
`ValueError("Creator plan not found")`, modelled as `Except.error` (the
transaction performs no write in that case). -/
def upsert_creator_plan (store : List CreatorPlan) (plan_id : Option Nat)
    (slug display_name : String) (description : Option String)
    (monthly_fee : ℚ) (currency_code : String)
    (stripe_price_id : Option String) (max_niches : Int)
    (feature_summary : String) (discount : ℚ) :
    Except String (CreatorPlan × List CreatorPlan) :=
  let normalized_slug := normalize_slug slug
  match plan_id with
  | none =>
      let fresh_id := (store.map (fun p => p.id)).foldr max 0 + 1
      let base : CreatorPlan :=
        { id := fresh_id, slug := normalized_slug, display_name := ""
          monthly_fee := 0, currency_code := "", max_niches := 1
          feature_summary := "", platform_fee_discount_percent := 0 }
      let plan := apply_plan_fields base display_name description monthly_fee
        currency_code stripe_price_id max_niches feature_summary discount
      Except.ok (plan, store ++ [plan])
  | some pid =>
      match store.find? (fun p => p.id == pid) with
      | none => Except.error "Creator plan not found"
      | some p =>
          let updated := apply_plan_fields p display_name description
            monthly_fee currency_code stripe_price_id max_niches
            feature_summary discount
          Except.ok (updated, store.map fun q => if q.id == pid then updated else q)

/-- Embedding of `attach_creator_privileges` (lines 191-205) as a pure update
of the user row.  Note the source first reassigns `user.role` (line 195) and
then computes `is_premium` from the already-updated role (line 196). -/
def attach_creator_privileges (user : User) (active_plan : Option CreatorPlan) :
    User :=
  let desired_role := if active_plan.isSome then UserRole.NICHE_ADMIN
                      else UserRole.SUBSCRIBER
  let new_role := if user.role ≠ UserRole.ADMIN then desired_role else user.role
  { user with
    role := new_role
    is_premium := active_plan.isSome || decide (new_role = UserRole.ADMIN) }

section ArithmeticLemmas

/-- Half-up rounding is the identity on integers. -/
theorem roundHalfUp_intCast (n : ℤ) : roundHalfUp (n : ℚ) = n := by
  have h1 : ⌊(n : ℚ) + 1 / 2⌋ = n := by
    rw [Int.floor_eq_iff]
    constructor
    · linarith
    · linarith
  have h2 : ⌊-(n : ℚ) + 1 / 2⌋ = -n := by
    rw [Int.floor_eq_iff]
    refine ⟨by push_cast; linarith, by push_cast; linarith⟩
  unfold roundHalfUp
  split
  · exact h1
  · rw [h2]
    ring

/-- Evaluation rule for `quantize_amount` when the scaled value is an
integer. -/
theorem quantize_amount_eq (v : ℚ) (n : ℤ) (h : v * 100 = (n : ℚ)) :
    quantize_amount v = (n : ℚ) / 100 := by
  unfold quantize_amount
  rw [h, roundHalfUp_intCast]

/-- Half-up rounding is monotone. -/
theorem roundHalfUp_mono {x y : ℚ} (h : x ≤ y) :
    roundHalfUp x ≤ roundHalfUp y := by
  unfold roundHalfUp
  split
  · split
    · exact Int.floor_le_floor (by linarith)
    · linarith
  · split
    · have hx0 : ¬ 0 ≤ x := by assumption
      have hfy : (0 : ℤ) ≤ ⌊y + 1 / 2⌋ := by
        apply Int.le_floor.mpr
        push_cast
        linarith
      have hfx : (0 : ℤ) ≤ ⌊-x + 1 / 2⌋ := by
        apply Int.le_floor.mpr
        push_cast
        linarith [lt_of_not_le hx0]
      linarith
    · have : ⌊-y + 1 / 2⌋ ≤ ⌊-x + 1 / 2⌋ := Int.floor_le_floor (by linarith)
      linarith

/-- `quantize_amount` is monotone. -/
theorem quantize_amount_mono {x y : ℚ} (h : x ≤ y) :
    quantize_amount x ≤ quantize_amount y := by
  unfold quantize_amount
  have := roundHalfUp_mono (mul_le_mul_of_nonneg_right h (by norm_num : (0:ℚ) ≤ 100))
  have hc : ((roundHalfUp (x * 100) : ℚ)) ≤ (roundHalfUp (y * 100) : ℚ) :=
    Int.cast_le.mpr this
  linarith

/-- A rational is fixed by quantization exactly when it lies on the
two-decimal-place grid. -/
theorem isQuantized_iff {v : ℚ} : isQuantized v ↔ ∃ n : ℤ, v = (n : ℚ) / 100 := by
  constructor
  · intro h
    exact ⟨roundHalfUp (v * 100), h.symm⟩
  · rintro ⟨n, rfl⟩
    exact quantize_amount_eq _ n (div_mul_cancel₀ _ (by norm_num))

/-- Quantizing twice is the same as quantizing once: the output of
`quantize_amount` is on the grid. -/
theorem isQuantized_quantize (v : ℚ) : isQuantized (quantize_amount v) :=
  isQuantized_iff.mpr ⟨roundHalfUp (v * 100), rfl⟩

/-- The two-decimal grid is closed under subtraction. -/
theorem isQuantized_sub {a b : ℚ} (ha : isQuantized a) (hb : isQuantized b) :
    isQuantized (a - b) := by
  obtain ⟨n, rfl⟩ := isQuantized_iff.mp ha
  obtain ⟨m, rfl⟩ := isQuantized_iff.mp hb
  refine isQuantized_iff.mpr ⟨n - m, ?_⟩
  push_cast
  ring

end ArithmeticLemmas

section SplitLemmas

/-- With positive gross, `calculate_revenue_split` takes the percentage
branch. -/
theorem calculate_revenue_split_pos {gross : ℚ}
    (settings : PlatformMonetisationSettings) (plan : Option CreatorPlan)
    (hg : 0 < gross) :
    calculate_revenue_split gross settings plan =
      (quantize_amount (max (gross * (effective_fee_percent settings plan / 100))
          settings.minimum_platform_fee),
       quantize_amount (gross -
          quantize_amount (max (gross * (effective_fee_percent settings plan / 100))
            settings.minimum_platform_fee))) := by
  unfold calculate_revenue_split
  rw [if_neg (not_le.mpr hg)]

/-- The quantized platform fee is at least the minimum fee, provided the
minimum fee (like every amount the store holds) lies on the two-decimal
grid. -/
theorem revenue_split_fee_ge {gross : ℚ}
    (settings : PlatformMonetisationSettings) (plan : Option CreatorPlan)
    (hg : 0 < gross) (hm : isQuantized settings.minimum_platform_fee) :
    settings.minimum_platform_fee ≤ (calculate_revenue_split gross settings plan).1 := by
  rw [calculate_revenue_split_pos settings plan hg]
  calc settings.minimum_platform_fee
      = quantize_amount settings.minimum_platform_fee := hm.symm
    _ ≤ _ := quantize_amount_mono (le_max_right _ _)

/-- The two components of the split sum to the gross amount, provided the
gross amount lies on the two-decimal grid. -/
theorem revenue_split_sum {gross : ℚ}
    (settings : PlatformMonetisationSettings) (plan : Option CreatorPlan)
    (hg : 0 < gross) (hq : isQuantized gross) :
    (calculate_revenue_split gross settings plan).1 +
      (calculate_revenue_split gross settings plan).2 = gross := by
  rw [calculate_revenue_split_pos settings plan hg]
  have hfee : isQuantized (quantize_amount
      (max (gross * (effective_fee_percent settings plan / 100))
        settings.minimum_platform_fee)) := isQuantized_quantize _
  have hrem : isQuantized (gross - quantize_amount
      (max (gross * (effective_fee_percent settings plan / 100))
        settings.minimum_platform_fee)) := isQuantized_sub hq hfee
  dsimp only
  rw [hrem]
  ring

/-- Non-positive gross short-circuits to `(0, 0)` (line 170-171). -/
theorem calculate_revenue_split_nonpos {gross : ℚ}
    (settings : PlatformMonetisationSettings) (plan : Option CreatorPlan)
    (hg : gross ≤ 0) :
    calculate_revenue_split gross settings plan = (0, 0) := by
  unfold calculate_revenue_split
  rw [if_pos hg]

end SplitLemmas

/-- A sample creator plan whose fee discount is the full base percentage. -/
def proPlanDiscount15 : CreatorPlan :=
  { id := 1, slug := "pro", display_name := "Pro", monthly_fee := 0
    currency_code := "GBP", max_niches := 1, feature_summary := ""
    platform_fee_discount_percent := 15 }

/-- A sample creator plan carrying a negative fee discount, which no layer of
the service rejects or clamps. -/
def negDiscountPlan : CreatorPlan :=
  { id := 2, slug := "neg", display_name := "Neg", monthly_fee := 0
    currency_code := "GBP", max_niches := 1, feature_summary := ""
    platform_fee_discount_percent := -5 }

/-- C1: for every positive gross amount (a two-decimal currency value, as all
amounts flowing into the calculator are) and every settings record (whose
minimum fee is stored quantized), `calculate_revenue_split` returns a fee at
least `minimum_platform_fee` and the fee and payout sum exactly to the gross
amount. -/
theorem C1_revenue_split_invariant (gross : ℚ)
    (settings : PlatformMonetisationSettings) (plan : Option CreatorPlan)
    (hg : 0 < gross) (hq : isQuantized gross)
    (hm : isQuantized settings.minimum_platform_fee) :
    settings.minimum_platform_fee ≤ (calculate_revenue_split gross settings plan).1 ∧
    (calculate_revenue_split gross settings plan).1 +
      (calculate_revenue_split gross settings plan).2 = gross :=
  ⟨revenue_split_fee_ge settings plan hg hm, revenue_split_sum settings plan hg hq⟩

/-- Witness for C1 at gross 10.00 under the default settings. -/
theorem C1_revenue_split_invariant_witness :
    (0:ℚ) < 10 ∧ isQuantized (10:ℚ) ∧
    isQuantized defaultSettings.minimum_platform_fee ∧
    (defaultSettings.minimum_platform_fee ≤
        (calculate_revenue_split 10 defaultSettings none).1 ∧
      (calculate_revenue_split 10 defaultSettings none).1 +
        (calculate_revenue_split 10 defaultSettings none).2 = 10) := by
  have hq : isQuantized (10:ℚ) := isQuantized_iff.mpr ⟨1000, by norm_num⟩
  have hm : isQuantized defaultSettings.minimum_platform_fee :=
    isQuantized_iff.mpr ⟨100, by norm_num [defaultSettings]⟩
  exact ⟨by norm_num, hq, hm,
    C1_revenue_split_invariant 10 defaultSettings none (by norm_num) hq hm⟩

/-- C2: with fee percent 15.00, minimum fee 1.00, gross 5.00 and a plan
discount of 15.00 the effective percent is 0, the raw fee 0.00 is floored to
the minimum 1.00, and the result is `(1.00, 4.00)`; the floor is applied to the
already-discounted percentage result. -/
theorem C2_floor_applied_after_discount :
    calculate_revenue_split 5 defaultSettings (some proPlanDiscount15) = (1, 4) := by
  rw [calculate_revenue_split_pos _ _ (by norm_num)]
  have heff : effective_fee_percent defaultSettings (some proPlanDiscount15) = 0 := by
    simp [effective_fee_percent, proPlanDiscount15, defaultSettings]
  rw [heff]
  have hmax : max ((5:ℚ) * (0 / 100)) defaultSettings.minimum_platform_fee = 1 := by
    simp [defaultSettings]
  rw [hmax]
  have h1 : quantize_amount (1:ℚ) = 1 := by
    rw [quantize_amount_eq 1 100 (by norm_num)]
    norm_num
  rw [h1]
  have h4 : quantize_amount (5 - 1 : ℚ) = 4 := by
    rw [quantize_amount_eq _ 400 (by norm_num)]
    norm_num
  rw [h4]

/-- C3 counterexample: nothing clamps a plan's `platform_fee_discount_percent`
to be non-negative, and the service stores it unchecked; with the default
settings (base percent 15.00) and a stored discount of -5.00 the effective
percent is `max 0 (15 - (-5)) = 20`, strictly above the base percent, so the
claim fails as stated. -/
theorem C3_counterexample :
    defaultSettings.platform_fee_percent <
      effective_fee_percent defaultSettings (some negDiscountPlan) := by
  have : effective_fee_percent defaultSettings (some negDiscountPlan) = 20 := by
    simp only [effective_fee_percent, negDiscountPlan, defaultSettings]
    norm_num [max_def]
  rw [this]
  norm_num [defaultSettings]

/-- C3 (amended): provided the base fee percent is non-negative (as the spec's
data model requires) and the supplied plan's discount percent is non-negative,
the effective fee percent is at least 0 and at most the base percent. -/
theorem C3_effective_percent_bounds (settings : PlatformMonetisationSettings)
    (plan : Option CreatorPlan)
    (hbase : 0 ≤ settings.platform_fee_percent)
    (hdisc : ∀ p, plan = some p → 0 ≤ p.platform_fee_discount_percent) :
    0 ≤ effective_fee_percent settings plan ∧
      effective_fee_percent settings plan ≤ settings.platform_fee_percent := by
  cases plan with
  | none => exact ⟨hbase, le_rfl⟩
  | some p =>
      have hd := hdisc p rfl
      rcases eq_or_ne p.platform_fee_discount_percent 0 with hz | hz
      · simp only [effective_fee_percent, hz, ne_eq, not_true_eq_false, if_false]
        exact ⟨hbase, le_rfl⟩
      · simp only [effective_fee_percent, ne_eq, hz, not_false_eq_true, if_true]
        exact ⟨le_max_left _ _, max_le hbase (by linarith)⟩

/-- Witness for the amended C3 at the default settings with a 15.00%
discount plan. -/
theorem C3_effective_percent_bounds_witness :
    0 ≤ effective_fee_percent defaultSettings (some proPlanDiscount15) ∧
      effective_fee_percent defaultSettings (some proPlanDiscount15) ≤
        defaultSettings.platform_fee_percent :=
  C3_effective_percent_bounds defaultSettings (some proPlanDiscount15)
    (by norm_num [defaultSettings])
    (fun p hp => by
      injection hp with h
      subst h
      norm_num [proPlanDiscount15])

/-- C4: when the minimum fee exceeds a positive gross amount the creator
payout comes back negative, unclamped. -/
theorem C4_negative_payout (gross : ℚ)
    (settings : PlatformMonetisationSettings) (plan : Option CreatorPlan)
    (hg : 0 < gross) (hlt : gross < settings.minimum_platform_fee)
    (hq : isQuantized gross) (hm : isQuantized settings.minimum_platform_fee) :
    (calculate_revenue_split gross settings plan).2 < 0 := by
  have hsum := revenue_split_sum settings plan hg hq
  have hfee := revenue_split_fee_ge settings plan hg hm
  linarith

/-- Witness for C4: gross 0.50 against minimum fee 1.00 yields exactly
`(1.00, -0.50)`, and the payout is negative by the theorem. -/
theorem C4_negative_payout_witness :
    calculate_revenue_split (1/2) defaultSettings none = (1, -(1/2)) ∧
    (calculate_revenue_split (1/2) defaultSettings none).2 < 0 := by
  constructor
  · rw [calculate_revenue_split_pos _ _ (by norm_num)]
    have heff : effective_fee_percent defaultSettings none = 15 := by
      simp [effective_fee_percent, defaultSettings]
    rw [heff]
    have hmax : max ((1/2:ℚ) * (15 / 100)) defaultSettings.minimum_platform_fee = 1 := by
      rw [max_eq_right]
      · rfl
      · norm_num [defaultSettings]
    rw [hmax]
    have h1 : quantize_amount (1:ℚ) = 1 := by
      rw [quantize_amount_eq 1 100 (by norm_num)]
      norm_num
    rw [h1]
    have hneg : quantize_amount (1/2 - 1 : ℚ) = -(1/2) := by
      rw [quantize_amount_eq _ (-50) (by norm_num)]
      norm_num
    rw [hneg]
  · have hq : isQuantized (1/2:ℚ) := isQuantized_iff.mpr ⟨50, by norm_num⟩
    have hm : isQuantized defaultSettings.minimum_platform_fee :=
      isQuantized_iff.mpr ⟨100, by norm_num [defaultSettings]⟩
    exact C4_negative_payout (1/2) defaultSettings none (by norm_num)
      (by norm_num [defaultSettings]) hq hm

/-- Quantizing zero gives zero. -/
theorem quantize_amount_zero : quantize_amount 0 = 0 := by
  rw [quantize_amount_eq 0 0 (by norm_num)]
  norm_num

/-- C5: after `ensure_subscription_metrics` the stored gross equals fee plus
payout whenever the stored gross is positive, all three amounts are zero when
the gross amount is zero, and the status is ACTIVE exactly when the gross
amount is positive (TRIALING otherwise).  The gross amount handed in is a
two-decimal currency value, as `calculate_subscription_totals` always
produces. -/
theorem C5_subscription_metrics_invariant (sub : Subscription) (gross : ℚ)
    (settings : PlatformMonetisationSettings) (plan : Option CreatorPlan)
    (cc bc : String) (hq : isQuantized gross) :
    (0 < (ensure_subscription_metrics sub gross settings plan cc bc).gross_amount →
      (ensure_subscription_metrics sub gross settings plan cc bc).gross_amount =
        (ensure_subscription_metrics sub gross settings plan cc bc).platform_fee_amount +
        (ensure_subscription_metrics sub gross settings plan cc bc).creator_payout_amount) ∧
    (gross = 0 →
      (ensure_subscription_metrics sub gross settings plan cc bc).gross_amount = 0 ∧
      (ensure_subscription_metrics sub gross settings plan cc bc).platform_fee_amount = 0 ∧
      (ensure_subscription_metrics sub gross settings plan cc bc).creator_payout_amount = 0) ∧
    (0 < gross →
      (ensure_subscription_metrics sub gross settings plan cc bc).status =
        SubscriptionStatus.ACTIVE) ∧
    (¬ 0 < gross →
      (ensure_subscription_metrics sub gross settings plan cc bc).status =
        SubscriptionStatus.TRIALING) := by
  have hq' : quantize_amount gross = gross := hq
  refine ⟨?_, ?_, ?_, ?_⟩
  · intro hpos
    have hpos' : 0 < gross := by
      simpa [ensure_subscription_metrics, hq'] using hpos
    have hsum := revenue_split_sum settings plan hpos' hq
    simp [ensure_subscription_metrics, hq']
    linarith
  · intro h0
    subst h0
    have hsplit := calculate_revenue_split_nonpos settings plan le_rfl
    simp [ensure_subscription_metrics, hsplit, quantize_amount_zero]
  · intro hpos
    simp [ensure_subscription_metrics, if_pos hpos]
  · intro hneg
    simp [ensure_subscription_metrics, if_neg hneg]

/-- Witness for C5 at gross 10.00 under the default settings. -/
theorem C5_subscription_metrics_invariant_witness :
    isQuantized (10:ℚ) ∧
    (0 < (ensure_subscription_metrics
        { currency_code := "", billing_cadence := "", gross_amount := 0
          platform_fee_amount := 0, creator_payout_amount := 0
          status := SubscriptionStatus.TRIALING }
        10 defaultSettings none "GBP" "monthly").gross_amount →
      (ensure_subscription_metrics
        { currency_code := "", billing_cadence := "", gross_amount := 0
          platform_fee_amount := 0, creator_payout_amount := 0
          status := SubscriptionStatus.TRIALING }
        10 defaultSettings none "GBP" "monthly").gross_amount =
        (ensure_subscription_metrics
          { currency_code := "", billing_cadence := "", gross_amount := 0
            platform_fee_amount := 0, creator_payout_amount := 0
            status := SubscriptionStatus.TRIALING }
          10 defaultSettings none "GBP" "monthly").platform_fee_amount +
        (ensure_subscription_metrics
          { currency_code := "", billing_cadence := "", gross_amount := 0
            platform_fee_amount := 0, creator_payout_amount := 0
            status := SubscriptionStatus.TRIALING }
          10 defaultSettings none "GBP" "monthly").creator_payout_amount) := by
  have hq : isQuantized (10:ℚ) := isQuantized_iff.mpr ⟨1000, by norm_num⟩
  exact ⟨hq, (C5_subscription_metrics_invariant _ 10 defaultSettings none
    "GBP" "monthly" hq).1⟩

/-- C6: the gross recurring amount is the quantized sum of the selected
products' prices, and selecting nothing yields exactly zero. -/
theorem C6_subscription_totals (np rp : ℚ) (wn wr : Bool)
    (_hnp : 0 ≤ np) (_hrp : 0 ≤ rp) :
    calculate_subscription_totals np rp wn wr =
      quantize_amount ((if wn then np else 0) + (if wr then rp else 0)) ∧
    (wn = false → wr = false → calculate_subscription_totals np rp wn wr = 0) := by
  constructor
  · cases wn <;> cases wr <;> simp [calculate_subscription_totals]
  · intro h1 h2
    subst h1
    subst h2
    simp [calculate_subscription_totals, quantize_amount_zero]

/-- Witness for C6 at the spec's example prices 10.00 and 25.00. -/
theorem C6_subscription_totals_witness :
    (0:ℚ) ≤ 10 ∧ (0:ℚ) ≤ 25 ∧
    (calculate_subscription_totals 10 25 true false =
        quantize_amount ((if true then (10:ℚ) else 0) + (if false then (25:ℚ) else 0)) ∧
      (true = false → false = false → calculate_subscription_totals 10 25 true false = 0)) :=
  ⟨by norm_num, by norm_num,
    C6_subscription_totals 10 25 true false (by norm_num) (by norm_num)⟩

/-- C7: `get_or_create_platform_settings` creates the singleton row with the
fixed defaults (15.00% fee, 1.00 minimum, "GBP") when the table is empty, and
a second call returns the same settings against the same one-row table. -/
theorem C7_settings_idempotent (store : List PlatformMonetisationSettings) :
    (store = [] →
      get_or_create_platform_settings store = (defaultSettings, [defaultSettings]) ∧
      defaultSettings.platform_fee_percent = 15 ∧
      defaultSettings.minimum_platform_fee = 1 ∧
      defaultSettings.currency_code = "GBP") ∧
    (get_or_create_platform_settings (get_or_create_platform_settings store).2).1 =
      (get_or_create_platform_settings store).1 ∧
    (get_or_create_platform_settings (get_or_create_platform_settings store).2).2 =
      (get_or_create_platform_settings store).2 := by
  cases store with
  | nil => exact ⟨fun _ => ⟨rfl, rfl, rfl, rfl⟩, rfl, rfl⟩
  | cons s t => exact ⟨fun h => (List.cons_ne_nil s t h).elim, rfl, rfl⟩

/-- Witness for C7 on the empty settings table. -/
theorem C7_settings_idempotent_witness :
    get_or_create_platform_settings ([] : List PlatformMonetisationSettings) =
      (defaultSettings, [defaultSettings]) ∧
    (get_or_create_platform_settings
        (get_or_create_platform_settings
          ([] : List PlatformMonetisationSettings)).2).1 =
      (get_or_create_platform_settings
        ([] : List PlatformMonetisationSettings)).1 :=
  ⟨((C7_settings_idempotent []).1 rfl).1, (C7_settings_idempotent []).2.1⟩

/-- C8: when no stored plan carries the supplied id, `upsert_creator_plan`
fails with the NotFound-style error (`ValueError("Creator plan not found")`),
and since the error is raised before any assignment or insert, no plan is
created or mutated (in the embedding, a new plan table is only ever produced
through an `ok` result). -/
theorem C8_unknown_plan_id (store : List CreatorPlan) (pid : Nat)
    (slug dn : String) (de : Option String) (mf : ℚ) (cc : String)
    (sp : Option String) (mn : Int) (fs : String) (di : ℚ)
    (h : ∀ p ∈ store, p.id ≠ pid) :
    upsert_creator_plan store (some pid) slug dn de mf cc sp mn fs di =
      Except.error "Creator plan not found" := by
  have hfind : store.find? (fun p => p.id == pid) = none :=
    List.find?_eq_none.mpr fun x hx => by simpa using h x hx
  simp [upsert_creator_plan, hfind]

/-- Witness for C8: a one-plan table queried with a different id. -/
theorem C8_unknown_plan_id_witness :
    upsert_creator_plan [proPlanDiscount15] (some 99) "x" "X" none 0 "GBP"
        none 1 "" 0 =
      Except.error "Creator plan not found" :=
  C8_unknown_plan_id [proPlanDiscount15] 99 "x" "X" none 0 "GBP" none 1 "" 0
    (by
      intro p hp
      simp at hp
      subst hp
      simp [proPlanDiscount15])

/-- C9: a user whose role is ADMIN keeps the ADMIN role and is marked premium
by `attach_creator_privileges`, with or without an active plan. -/
theorem C9_admin_never_demoted (user : User) (plan : Option CreatorPlan)
    (h : user.role = UserRole.ADMIN) :
    (attach_creator_privileges user plan).role = UserRole.ADMIN ∧
    (attach_creator_privileges user plan).is_premium = true := by
  simp [attach_creator_privileges, h]

/-- Witness for C9: an ADMIN user with no active plan. -/
theorem C9_admin_never_demoted_witness :
    (attach_creator_privileges
        { email := "a@b.c", role := UserRole.ADMIN, is_premium := false }
        none).role = UserRole.ADMIN ∧
    (attach_creator_privileges
        { email := "a@b.c", role := UserRole.ADMIN, is_premium := false }
        none).is_premium = true :=
  C9_admin_never_demoted
    { email := "a@b.c", role := UserRole.ADMIN, is_premium := false } none rfl

/-- C10: updating an existing plan rewrites every field except the slug, which
keeps its stored value whatever slug string is supplied; slug normalization is
applied only on the create path (no id given). -/
theorem C10_update_keeps_slug (store : List CreatorPlan) (pid : Nat)
    (p : CreatorPlan) (slug dn : String) (de : Option String) (mf : ℚ)
    (cc : String) (sp : Option String) (mn : Int) (fs : String) (di : ℚ)
    (h : store.find? (fun q => q.id == pid) = some p) :
    (upsert_creator_plan store (some pid) slug dn de mf cc sp mn fs di =
      Except.ok (apply_plan_fields p dn de mf cc sp mn fs di,
        store.map fun q =>
          if q.id == pid then apply_plan_fields p dn de mf cc sp mn fs di
          else q) ∧
      (apply_plan_fields p dn de mf cc sp mn fs di).slug = p.slug) ∧
    ∀ r, upsert_creator_plan store none slug dn de mf cc sp mn fs di =
        Except.ok r → r.1.slug = normalize_slug slug := by
  refine ⟨⟨?_, rfl⟩, ?_⟩
  · simp [upsert_creator_plan, h]
  · intro r hr
    simp only [upsert_creator_plan, Except.ok.injEq] at hr
    rw [← hr]
    rfl

/-- Witness for C10: updating the stored plan with slug "pro" under the
slug string "New Slug" leaves "pro" in place, while a plan created under
"New Slug" gets the normalized slug. -/
theorem C10_update_keeps_slug_witness :
    (upsert_creator_plan [proPlanDiscount15] (some 1) "New Slug" "X" none 0
        "GBP" none 1 "" 0 =
      Except.ok (apply_plan_fields proPlanDiscount15 "X" none 0 "GBP" none 1 "" 0,
        [proPlanDiscount15].map fun q =>
          if q.id == 1 then apply_plan_fields proPlanDiscount15 "X" none 0 "GBP" none 1 "" 0
          else q) ∧
      (apply_plan_fields proPlanDiscount15 "X" none 0 "GBP" none 1 "" 0).slug =
        proPlanDiscount15.slug) ∧
    ∀ r, upsert_creator_plan [proPlanDiscount15] none "New Slug" "X" none 0
        "GBP" none 1 "" 0 = Except.ok r → r.1.slug = normalize_slug "New Slug" :=
  C10_update_keeps_slug [proPlanDiscount15] 1 proPlanDiscount15
    "New Slug" "X" none 0 "GBP" none 1 "" 0
    (by simp [proPlanDiscount15])

end Nichifier
